import Mathlib

/-!
Verification of the cluster membership lifecycle (unjoin) and health
monitoring subsystem of the kubefed repository.

The Go code is shallowly embedded: every Kubernetes API call made by the
code is resolved through an explicit oracle (`MemberApi` / `HostApi`)
giving the outcome of that call, and every embedded function returns,
next to its Go return value, the list of API calls it performed
(`Event`), so that claims about which calls happen (best-effort
exhaustiveness, dry-run purity, gating of the host-side deregistration)
become statements about the returned trace.
-/

namespace Kubefed

/-- Outcome of a Kubernetes delete call, as classified by the Go code:
`err == nil` (ok), `apierrors.IsNotFound(err)` (notFound), or any other
non-nil error (otherError). -/
inductive DelResult where
  | ok
  | notFound
  | otherError
deriving DecidableEq, Repr

/-- Tests `err == nil` for a delete outcome. -/
def DelResult.isNil : DelResult → Bool
  | .ok => true
  | _ => false

/-- Tests `apierrors.IsNotFound(err)` for a delete outcome. -/
def DelResult.isNotFound : DelResult → Bool
  | .notFound => true
  | _ => false

/-- Outcome of a Kubernetes get call: the object with `err == nil`,
or a NotFound error, or any other error. -/
inductive GetResult (α : Type) where
  | found (a : α)
  | notFound
  | otherError
deriving DecidableEq, Repr

/-- Tests `err == nil` for a get outcome. -/
def GetResult.isNil : GetResult α → Bool
  | .found _ => true
  | _ => false

/-- A namespace object as far as the unjoin logic looks at it: its name
and its object identity (Kubernetes UID). -/
structure NamespaceObj where
  name : String
  uid : Nat
deriving DecidableEq, Repr

/-- The fields of a KubefedCluster resource read by
`deleteKubefedClusterAndSecret`: its namespace, its name, and
`Spec.SecretRef.Name`. -/
structure KubefedClusterObj where
  namespaceField : String
  name : String
  secretRefName : String
deriving DecidableEq, Repr

/-- The Kubernetes API calls issued by the embedded code, in the order
they are issued.  Calls prefixed `mem` target the unjoining (member)
cluster's API server, calls prefixed `host` target the host cluster. -/
inductive Event where
  | memDelClusterRoleBinding (name : String)
  | memDelClusterRole (name : String)
  | memDelRoleBinding (ns name : String)
  | memDelRole (ns name : String)
  | memDelServiceAccount (ns name : String)
  | memGetNamespace (name : String)
  | memDelNamespace (name : String)
  | hostGetNamespace (name : String)
  | hostGetKubefedCluster (ns name : String)
  | hostDelSecret (ns name : String)
  | hostDelKubefedCluster (ns name : String)
deriving DecidableEq, Repr

/-- Whether an API call mutates cluster state (deletes) as opposed to
reading it (gets). -/
def Event.isMutating : Event → Bool
  | .memGetNamespace _ => false
  | .hostGetNamespace _ => false
  | .hostGetKubefedCluster _ _ => false
  | _ => true

/-- Oracle for the member cluster's API server: the outcome of each call
the unjoin code can make against it. -/
structure MemberApi where
  delClusterRoleBinding : String → DelResult
  delClusterRole : String → DelResult
  delRoleBinding : String → String → DelResult
  delRole : String → String → DelResult
  delServiceAccount : String → String → DelResult
  getNamespace : String → GetResult NamespaceObj
  delNamespace : String → DelResult

/-- Oracle for the host cluster's API server. -/
structure HostApi where
  getNamespace : String → GetResult NamespaceObj
  getKubefedCluster : String → String → GetResult KubefedClusterObj
  delSecret : String → String → DelResult
  delKubefedCluster : String → String → DelResult

/-- All the error returns the embedded code distinguishes. -/
inductive GoError where
  | nameRequired
  | hostClusterNameInvalid
  | hostClusterContextInvalid
  | hostConfigLoad
  | clusterConfigLoad
  | hostClientsetBuild
  | clusterClientsetBuild
  | genericClientBuild
  | hostNsLookup
  | memberNsLookup
  | nsDelete
  | nodeList
deriving DecidableEq, Repr

/-- Modelled from the spec: `util.ClusterServiceAccountName` is not under
src/; §6 says the delegated service-account name is a deterministic
function of `(unjoiningClusterName, hostClusterName)`. -/
def ClusterServiceAccountName (unjoiningClusterName hostClusterName : String) : String :=
  unjoiningClusterName ++ "-" ++ hostClusterName

/-- Modelled from the spec: `util.RoleName` is not under src/; §6 says
the cluster role/binding name is a deterministic function of the
service-account name. -/
def RoleName (saName : String) : String :=
  "kubefed-controller-manager:" ++ saName

/-- Modelled from the spec: `util.HealthCheckRoleName` is not under
src/; §6 says a distinct health-check role name additionally
incorporates the target namespace. -/
def HealthCheckRoleName (saName nsName : String) : String :=
  "kubefed-controller-manager:" ++ saName ++ ":healthcheck:" ++ nsName

/-- Modelled from the spec: `controllerutil.IsPrimaryCluster` is not
under src/; §4.3 and §3 say the primacy test is an object-identity
comparison (not a name comparison) between the host's copy and the
member's copy of the namespace. -/
def IsPrimaryCluster (hostNs memberNs : NamespaceObj) : Bool :=
  hostNs.uid == memberNs.uid

/-- Embeds the body of the `for _, name := range []string{roleName,
healthCheckRoleName}` loop of `deleteClusterRoleAndBinding`: for each
name, delete the cluster role binding then the cluster role, clearing
`deletionSucceeded` on any non-NotFound error, accumulating the calls. -/
def clusterRoleLoop (m : MemberApi) : List String → Bool × List Event
  | [] => (true, [])
  | name :: rest =>
      let r1 := m.delClusterRoleBinding name
      let s1 := !(!r1.isNil && !r1.isNotFound)
      let r2 := m.delClusterRole name
      let s2 := !(!r2.isNil && !r2.isNotFound)
      let tailRes := clusterRoleLoop m rest
      (s1 && s2 && tailRes.1,
        Event.memDelClusterRoleBinding name :: Event.memDelClusterRole name :: tailRes.2)

/-- Embeds `deleteClusterRoleAndBinding`: deletes the two cluster-scoped
role/binding pairs, then the namespace-scoped role binding and role,
never stopping early; returns the `deletionSucceeded` flag.  Under
`dryRun` it returns `true` immediately. -/
def deleteClusterRoleAndBinding (m : MemberApi) (saName nsName : String)
    (dryRun : Bool) : Bool × List Event :=
  if dryRun then (true, [])
  else
    let roleName := RoleName saName
    let healthCheckRoleName := HealthCheckRoleName saName nsName
    let loopRes := clusterRoleLoop m [roleName, healthCheckRoleName]
    let r3 := m.delRoleBinding nsName roleName
    let s3 := !(!r3.isNil && !r3.isNotFound)
    let r4 := m.delRole nsName roleName
    let s4 := !(!r4.isNil && !r4.isNotFound)
    (loopRes.1 && s3 && s4,
      loopRes.2 ++ [Event.memDelRoleBinding nsName roleName,
                    Event.memDelRole nsName roleName])

/-- Embeds `deleteServiceAccount`: under `dryRun` returns `nil` without
calling the API; otherwise returns the raw error of the service-account
delete call. -/
def deleteServiceAccount (m : MemberApi) (saName nsName : String)
    (dryRun : Bool) : DelResult × List Event :=
  if dryRun then (.ok, [])
  else (m.delServiceAccount nsName saName, [Event.memDelServiceAccount nsName saName])

/-- Embeds `deleteRBACResources`: computes the service-account name,
deletes the role/binding set, then the service account, clearing the
aggregate flag when the service-account delete returns any non-nil
error (NotFound included). -/
def deleteRBACResources (m : MemberApi)
    (nsName unjoiningClusterName hostClusterName : String)
    (dryRun : Bool) : Bool × List Event :=
  let saName := ClusterServiceAccountName unjoiningClusterName hostClusterName
  let rbRes := deleteClusterRoleAndBinding m saName nsName dryRun
  let saRes := deleteServiceAccount m saName nsName dryRun
  (if !saRes.1.isNil then false else rbRes.1, rbRes.2 ++ saRes.2)

/-- Embeds `deleteFedNSFromUnjoinCluster`: under `dryRun` returns `nil`
immediately; otherwise fetches the namespace from the host (any error
propagates), then from the member (any error propagates), skips the
delete when the member's copy is identity-equal to the host's, and
otherwise deletes it on the member, treating a NotFound delete outcome
as success. -/
def deleteFedNSFromUnjoinCluster (h : HostApi) (m : MemberApi)
    (kubefedNamespace unjoiningClusterName : String)
    (dryRun : Bool) : Option GoError × List Event :=
  if dryRun then (none, [])
  else
    match h.getNamespace kubefedNamespace with
    | .notFound => (some .hostNsLookup, [Event.hostGetNamespace kubefedNamespace])
    | .otherError => (some .hostNsLookup, [Event.hostGetNamespace kubefedNamespace])
    | .found hostClusterNamespace =>
      match m.getNamespace kubefedNamespace with
      | .notFound => (some .memberNsLookup,
          [Event.hostGetNamespace kubefedNamespace, Event.memGetNamespace kubefedNamespace])
      | .otherError => (some .memberNsLookup,
          [Event.hostGetNamespace kubefedNamespace, Event.memGetNamespace kubefedNamespace])
      | .found unjoiningClusterNamespace =>
        let gets := [Event.hostGetNamespace kubefedNamespace,
                     Event.memGetNamespace kubefedNamespace]
        if IsPrimaryCluster hostClusterNamespace unjoiningClusterNamespace then
          (none, gets)
        else
          let r := m.delNamespace kubefedNamespace
          let tr := gets ++ [Event.memDelNamespace kubefedNamespace]
          if r.isNotFound then (none, tr)
          else if !r.isNil then (some .nsDelete, tr)
          else (none, tr)

/-- Embeds `deleteKubefedClusterAndSecret`: under `dryRun` returns
immediately; otherwise fetches the KubefedCluster record (any failure is
logged and the function returns), then deletes the referenced secret and
the record itself, logging but ignoring either delete's error.  The Go
function returns nothing, so only the trace is produced. -/
def deleteKubefedClusterAndSecret (h : HostApi)
    (kubefedNamespace unjoiningClusterName : String) (dryRun : Bool) : List Event :=
  if dryRun then []
  else
    match h.getKubefedCluster kubefedNamespace unjoiningClusterName with
    | .notFound => [Event.hostGetKubefedCluster kubefedNamespace unjoiningClusterName]
    | .otherError => [Event.hostGetKubefedCluster kubefedNamespace unjoiningClusterName]
    | .found fedCluster =>
      [Event.hostGetKubefedCluster kubefedNamespace unjoiningClusterName,
       Event.hostDelSecret kubefedNamespace fedCluster.secretRefName,
       Event.hostDelKubefedCluster fedCluster.namespaceField fedCluster.name]

/-- The world an `UnjoinCluster` invocation runs against: the two API
oracles plus whether each client construction step succeeds. -/
structure UnjoinWorld where
  host : HostApi
  member : MemberApi
  hostClientsetOk : Bool
  clusterClientsetOk : Bool
  genericClientOk : Bool

/-- Embeds `UnjoinCluster`. `clusterConfigPresent` is whether the
`clusterConfig` argument is non-nil.  Builds the host clientset (failure
fatal), the member clientset when a config is present (failure fatal
only without `forceDeletion`), and the generic client (failure fatal);
then, when a member clientset exists, performs the member-side RBAC and
namespace teardown, and finally deletes the host-side record and secret
when the aggregate teardown succeeded or `forceDeletion` is set.
Always returns `nil` past the client-construction phase. -/
def UnjoinCluster (w : UnjoinWorld) (clusterConfigPresent : Bool)
    (kubefedNamespace hostClusterName unjoiningClusterName : String)
    (forceDeletion dryRun : Bool) : Option GoError × List Event :=
  if !w.hostClientsetOk then (some .hostClientsetBuild, [])
  else if clusterConfigPresent && !w.clusterClientsetOk && !forceDeletion then
    (some .clusterClientsetBuild, [])
  else if !w.genericClientOk then (some .genericClientBuild, [])
  else if clusterConfigPresent && w.clusterClientsetOk then
    let rbacRes :=
      deleteRBACResources w.member kubefedNamespace unjoiningClusterName hostClusterName dryRun
    let nsRes :=
      deleteFedNSFromUnjoinCluster w.host w.member kubefedNamespace unjoiningClusterName dryRun
    let deletionSucceeded := rbacRes.1 && nsRes.1.isNone
    let tr3 :=
      if deletionSucceeded || forceDeletion then
        deleteKubefedClusterAndSecret w.host kubefedNamespace unjoiningClusterName dryRun
      else []
    (none, rbacRes.2 ++ nsRes.2 ++ tr3)
  else
    let tr3 :=
      if forceDeletion then
        deleteKubefedClusterAndSecret w.host kubefedNamespace unjoiningClusterName dryRun
      else []
    (none, tr3)

/-- The option fields of `unjoinFederation` read by `Complete` and
`Run`: the global subcommand options, the common join options and the
unjoin-specific `forceDeletion` flag. -/
structure UnjoinOpts where
  clusterName : String
  clusterContext : String
  hostClusterName : String
  hostClusterContext : String
  kubefedNamespace : String
  forceDeletion : Bool
  dryRun : Bool
deriving DecidableEq, Repr

/-- Embeds `strings.ContainsAny(s, ":/")`. -/
def containsColonOrSlash (s : String) : Bool :=
  s.any (fun c => c == ':' || c == '/')

/-- Embeds `CommonJoinOptions.SetName`: errors when no positional
argument is given, otherwise stores the first argument as the cluster
name. -/
def SetName (o : UnjoinOpts) (args : List String) : Except GoError UnjoinOpts :=
  match args with
  | [] => .error .nameRequired
  | name :: _ => .ok { o with clusterName := name }

/-- Embeds `unjoinFederation.Complete`: sets the name, defaults the
cluster context to the cluster name, and rejects a `hostClusterName`
override containing `:` or `/`, or — when no override is given — a
host-cluster-context containing those characters. -/
def Complete (o : UnjoinOpts) (args : List String) : Except GoError UnjoinOpts :=
  match SetName o args with
  | .error e => .error e
  | .ok o1 =>
    let o2 := if o1.clusterContext == "" then { o1 with clusterContext := o1.clusterName } else o1
    if o2.hostClusterName != "" && containsColonOrSlash o2.hostClusterName then
      .error .hostClusterNameInvalid
    else if o2.hostClusterName == "" && containsColonOrSlash o2.hostClusterContext then
      .error .hostClusterContextInvalid
    else .ok o2

/-- Whether the `util.FedConfig` lookups of `unjoinFederation.Run`
succeed: loading the host cluster config and the unjoining cluster
config. -/
structure FedConfigModel where
  hostConfigOk : Bool
  clusterConfigOk : Bool

/-- Embeds `unjoinFederation.Run`: loads the host config (failure
fatal), loads the member config (failure fatal only without
`forceDeletion`; on failure with force the config stays nil), picks the
host cluster name (the override when set, the context otherwise) and
calls `UnjoinCluster`. -/
def unjoinRun (cfg : FedConfigModel) (w : UnjoinWorld) (o : UnjoinOpts) :
    Option GoError × List Event :=
  if !cfg.hostConfigOk then (some .hostConfigLoad, [])
  else if !cfg.clusterConfigOk && !o.forceDeletion then (some .clusterConfigLoad, [])
  else
    let hostClusterName := if o.hostClusterName != "" then o.hostClusterName else o.hostClusterContext
    UnjoinCluster w cfg.clusterConfigOk o.kubefedNamespace hostClusterName
      o.clusterName o.forceDeletion o.dryRun

/-- Embeds the `Run` closure of `NewCmdUnjoin`: `Complete` first, and
only on its success `Run`; a `Complete` failure terminates before any
network interaction, so the trace is empty. -/
def unjoinCommandRun (cfg : FedConfigModel) (w : UnjoinWorld) (o : UnjoinOpts)
    (args : List String) : Option GoError × List Event :=
  match Complete o args with
  | .error e => (some e, [])
  | .ok o2 => unjoinRun cfg w o2

/-- Embeds `fedcommon.ClusterReady` / `fedcommon.ClusterOffline`. -/
inductive ConditionType where
  | clusterReady
  | clusterOffline
deriving DecidableEq, Repr

/-- Embeds `corev1.ConditionTrue` / `corev1.ConditionFalse`. -/
inductive ConditionStatus where
  | conditionTrue
  | conditionFalse
deriving DecidableEq, Repr

/-- A `fedv1b1.ClusterCondition` as populated by
`GetClusterHealthStatus`; times are abstracted to a numeric clock. -/
structure ClusterCondition where
  type : ConditionType
  status : ConditionStatus
  reason : String
  message : String
  lastProbeTime : Nat
  lastTransitionTime : Nat
deriving DecidableEq, Repr

/-- The `newClusterReadyCondition` literal of `GetClusterHealthStatus`. -/
def newClusterReadyCondition (currentTime : Nat) : ClusterCondition :=
  { type := .clusterReady, status := .conditionTrue, reason := "ClusterReady",
    message := "/healthz responded with ok",
    lastProbeTime := currentTime, lastTransitionTime := currentTime }

/-- The `newClusterNotReadyCondition` literal of `GetClusterHealthStatus`. -/
def newClusterNotReadyCondition (currentTime : Nat) : ClusterCondition :=
  { type := .clusterReady, status := .conditionFalse, reason := "ClusterNotReady",
    message := "/healthz responded without ok",
    lastProbeTime := currentTime, lastTransitionTime := currentTime }

/-- The `newClusterOfflineCondition` literal of `GetClusterHealthStatus`. -/
def newClusterOfflineCondition (currentTime : Nat) : ClusterCondition :=
  { type := .clusterOffline, status := .conditionTrue, reason := "ClusterNotReachable",
    message := "cluster is not reachable",
    lastProbeTime := currentTime, lastTransitionTime := currentTime }

/-- The `newClusterNotOfflineCondition` literal of `GetClusterHealthStatus`. -/
def newClusterNotOfflineCondition (currentTime : Nat) : ClusterCondition :=
  { type := .clusterOffline, status := .conditionFalse, reason := "ClusterReachable",
    message := "cluster is reachable",
    lastProbeTime := currentTime, lastTransitionTime := currentTime }

/-- Case-insensitive character comparison: equal outright, or equal
after lowering an ASCII upper-case letter (codepoints 65-90) by 32. -/
def charEqFold (a b : Char) : Bool :=
  a == b ||
    (decide (a.toNat + 32 = b.toNat) && decide (65 ≤ a.toNat) && decide (a.toNat ≤ 90)) ||
    (decide (b.toNat + 32 = a.toNat) && decide (65 ≤ b.toNat) && decide (b.toNat ≤ 90))

/-- Character-list case-insensitive equality. -/
def eqFoldList : List Char → List Char → Bool
  | [], [] => true
  | a :: as, b :: bs => charEqFold a b && eqFoldList as bs
  | _, _ => false

/-- Embeds `strings.EqualFold`, restricted to the ASCII simple case folding
exercised by the probe body comparison against "ok". -/
def EqualFold (a b : String) : Bool :=
  eqFoldList a.data b.data

/-- Embeds `ClusterClient.GetClusterHealthStatus`: the probe outcome is
`none` on a request error and `some body` on a successful request.  A
request error appends only the Offline=True condition; a body not
case-insensitively equal to "ok" appends NotReady then NotOffline; an
"ok" body appends only Ready=True. -/
def GetClusterHealthStatus (probe : Option String) (currentTime : Nat) :
    List ClusterCondition :=
  match probe with
  | none => [newClusterOfflineCondition currentTime]
  | some body =>
    if !EqualFold body "ok" then
      [newClusterNotReadyCondition currentTime, newClusterNotOfflineCondition currentTime]
    else
      [newClusterReadyCondition currentTime]

/-- The `LabelZoneFailureDomain` constant of the cluster client. -/
def LabelZoneFailureDomain : String := "failure-domain.beta.kubernetes.io/zone"

/-- The `LabelZoneRegion` constant of the cluster client. -/
def LabelZoneRegion : String := "failure-domain.beta.kubernetes.io/region"

/-- A node, reduced to the label map inspected by the zone/region
helpers. -/
structure Node where
  labels : List (String × String)
deriving DecidableEq, Repr

/-- The `for key, value := range node.Labels` scan shared by
`getZoneNameForNode` and `getRegionNameForNode`: the value at the target
key, or `""` when the key is absent. -/
def labelScan (target : String) : List (String × String) → String
  | [] => ""
  | (key, value) :: rest => if key == target then value else labelScan target rest

/-- Embeds `getZoneNameForNode`. -/
def getZoneNameForNode (node : Node) : String :=
  labelScan LabelZoneFailureDomain node.labels

/-- Embeds `getRegionNameForNode`. -/
def getRegionNameForNode (node : Node) : String :=
  labelScan LabelZoneRegion node.labels

/-- Embeds the `for i, node := range nodes.Items` loop of
`GetClusterZones`: accumulates the deduplicated non-empty zone labels
(in first-occurrence order, as `sets.String.Insert` does before
listing), and takes the region from the node at index 0 only. -/
def zonesLoop : List Node → Nat → List String → String → List String × String
  | [], _, zones, region => (zones, region)
  | node :: rest, i, zones, region =>
    let zone := getZoneNameForNode node
    let region1 := if i == 0 then getRegionNameForNode node else region
    let zones1 := if zone != "" && !zones.contains zone then zones ++ [zone] else zones
    zonesLoop rest (i + 1) zones1 region1

/-- Codepoint-wise lexicographic order on character lists, the order
`sort.Strings` uses for `sets.String.List`. -/
def charListLe : List Char → List Char → Bool
  | [], _ => true
  | _ :: _, [] => false
  | a :: as, b :: bs =>
    if a.toNat < b.toNat then true
    else if b.toNat < a.toNat then false
    else charListLe as bs

/-- Lexicographic string order. -/
def strLe (a b : String) : Bool :=
  charListLe a.data b.data

/-- Embeds `ClusterClient.GetClusterZones`: on a node-listing error
returns the error; otherwise runs the aggregation loop and returns the
zone set listed in sorted order (`sets.String.List`) together with the
region. -/
def GetClusterZones (listing : Option (List Node)) :
    Except GoError (List String × String) :=
  match listing with
  | none => .error .nodeList
  | some nodes =>
    let res := zonesLoop nodes 0 [] ""
    .ok (List.insertionSort (fun a b => strLe a b = true) res.1, res.2)

/-- Whether an API call belongs to the host-side deregistration
performed by `deleteKubefedClusterAndSecret` (registration-record fetch,
secret delete, record delete). -/
def Event.isHostDeregistration : Event → Bool
  | .hostGetKubefedCluster _ _ => true
  | .hostDelSecret _ _ => true
  | .hostDelKubefedCluster _ _ => true
  | _ => false

/-- A member cluster on which every object is already absent: every
delete returns NotFound and the namespace lookup also reports
NotFound. -/
def allNotFoundMember : MemberApi where
  delClusterRoleBinding := fun _ => .notFound
  delClusterRole := fun _ => .notFound
  delRoleBinding := fun _ _ => .notFound
  delRole := fun _ _ => .notFound
  delServiceAccount := fun _ _ => .notFound
  getNamespace := fun _ => .notFound
  delNamespace := fun _ => .notFound

/-- A member cluster on which every delete returns NotFound but the
kubefed namespace still exists (with an identity distinct from the
host's copy). -/
def notFoundMemberNsFound : MemberApi where
  delClusterRoleBinding := fun _ => .notFound
  delClusterRole := fun _ => .notFound
  delRoleBinding := fun _ _ => .notFound
  delRole := fun _ _ => .notFound
  delServiceAccount := fun _ _ => .notFound
  getNamespace := fun nm => .found ⟨nm, 2⟩
  delNamespace := fun _ => .notFound

/-- A healthy member cluster: every call succeeds and its namespace copy
has identity 2 (distinct from the host's identity 1). -/
def allOkMember : MemberApi where
  delClusterRoleBinding := fun _ => .ok
  delClusterRole := fun _ => .ok
  delRoleBinding := fun _ _ => .ok
  delRole := fun _ _ => .ok
  delServiceAccount := fun _ _ => .ok
  getNamespace := fun nm => .found ⟨nm, 2⟩
  delNamespace := fun _ => .ok

/-- A member cluster on which every call fails with a non-NotFound
error. -/
def allFailMember : MemberApi where
  delClusterRoleBinding := fun _ => .otherError
  delClusterRole := fun _ => .otherError
  delRoleBinding := fun _ _ => .otherError
  delRole := fun _ _ => .otherError
  delServiceAccount := fun _ _ => .otherError
  getNamespace := fun _ => .otherError
  delNamespace := fun _ => .otherError

/-- The registration record used by the healthy host gadget. -/
def fedClusterRecord : KubefedClusterObj where
  namespaceField := "kube-federation-system"
  name := "cluster2"
  secretRefName := "cluster2-credentials"

/-- A healthy host cluster: namespace lookups find a copy with identity
1, the registration record exists, and deletes succeed. -/
def okHost : HostApi where
  getNamespace := fun nm => .found ⟨nm, 1⟩
  getKubefedCluster := fun _ _ => .found fedClusterRecord
  delSecret := fun _ _ => .ok
  delKubefedCluster := fun _ _ => .ok

/-- A host cluster on which every call fails with a non-NotFound
error. -/
def brokenHost : HostApi where
  getNamespace := fun _ => .otherError
  getKubefedCluster := fun _ _ => .otherError
  delSecret := fun _ _ => .otherError
  delKubefedCluster := fun _ _ => .otherError

/-- A world where both clusters are reachable and healthy. -/
def okWorld : UnjoinWorld where
  host := okHost
  member := allOkMember
  hostClientsetOk := true
  clusterClientsetOk := true
  genericClientOk := true

/-- A world where the host side is healthy but every member-side call
fails with a non-NotFound error. -/
def memberFailWorld : UnjoinWorld where
  host := okHost
  member := allFailMember
  hostClientsetOk := true
  clusterClientsetOk := true
  genericClientOk := true

/-- A `FedConfig` whose two lookups both succeed. -/
def cfgAllOk : FedConfigModel where
  hostConfigOk := true
  clusterConfigOk := true

/-- A `FedConfig` where the member cluster's config cannot be loaded
(member unreachable), the host's can. -/
def cfgMemberGone : FedConfigModel where
  hostConfigOk := true
  clusterConfigOk := false

/-- Baseline options for the concrete scenarios: unjoin `cluster2` with
host context `cluster1`. -/
def oPlain : UnjoinOpts where
  clusterName := "cluster2"
  clusterContext := "cluster2"
  hostClusterName := ""
  hostClusterContext := "cluster1"
  kubefedNamespace := "kube-federation-system"
  forceDeletion := false
  dryRun := false

/-- A member cluster where everything works except the namespace
delete, which fails with a non-NotFound error. -/
def nsDeleteFailMember : MemberApi :=
  { allOkMember with delNamespace := fun _ => .otherError }

/-- The baseline options with `forceDeletion` switched on. -/
def oForce : UnjoinOpts :=
  { oPlain with forceDeletion := true }

theorem notFoundTolerant_eq (r : DelResult) :
    (!(!r.isNil && !r.isNotFound)) = !(r == DelResult.otherError) := by
  cases r <;> rfl

/-- C1 fails on the code at this input: on a member cluster where every
delete (cluster roles, bindings, role, role binding, and the service
account) returns NotFound, `deleteRBACResources` reports aggregate
failure, because the service-account delete's error is propagated
raw and NotFound is not filtered there. -/
theorem C1_counterexample :
    (deleteRBACResources allNotFoundMember "kube-federation-system" "cluster2" "cluster1"
      false).1 = false := by
  rfl

/-- C1 (amended): a NotFound outcome is treated as success for every
cluster role, cluster role binding, namespace-scoped role and role
binding deletion, and for the member-namespace deletion; but the
service-account delete propagates NotFound as an error, so
`deleteRBACResources` reports aggregate failure when the
service-account delete returns NotFound. -/
theorem C1_notfound_success_except_service_account
    (m : MemberApi) (h : HostApi) (nsName cName hName : String)
    (hostNs memNs : NamespaceObj)
    (h1 : ∀ s, m.delClusterRoleBinding s = .notFound)
    (h2 : ∀ s, m.delClusterRole s = .notFound)
    (h3 : ∀ a b, m.delRoleBinding a b = .notFound)
    (h4 : ∀ a b, m.delRole a b = .notFound)
    (h5 : m.delServiceAccount nsName (ClusterServiceAccountName cName hName) = .notFound)
    (h6 : h.getNamespace nsName = .found hostNs)
    (h7 : m.getNamespace nsName = .found memNs)
    (h8 : IsPrimaryCluster hostNs memNs = false)
    (h9 : m.delNamespace nsName = .notFound) :
    (deleteClusterRoleAndBinding m (ClusterServiceAccountName cName hName) nsName false).1
        = true ∧
    (deleteFedNSFromUnjoinCluster h m nsName cName false).1 = none ∧
    (deleteRBACResources m nsName cName hName false).1 = false := by
  refine ⟨?_, ?_, ?_⟩
  · simp [deleteClusterRoleAndBinding, clusterRoleLoop, h1, h2, h3, h4,
      DelResult.isNil, DelResult.isNotFound]
  · simp [deleteFedNSFromUnjoinCluster, h6, h7, h8, h9, DelResult.isNotFound]
  · simp [deleteRBACResources, deleteServiceAccount, h5, DelResult.isNil]

theorem C1_amended_witness :
    (deleteClusterRoleAndBinding notFoundMemberNsFound
        (ClusterServiceAccountName "cluster2" "cluster1") "fed" false).1 = true ∧
    (deleteFedNSFromUnjoinCluster okHost notFoundMemberNsFound "fed" "cluster2" false).1
        = none ∧
    (deleteRBACResources notFoundMemberNsFound "fed" "cluster2" "cluster1" false).1 = false :=
  C1_notfound_success_except_service_account notFoundMemberNsFound okHost
    "fed" "cluster2" "cluster1" ⟨"fed", 1⟩ ⟨"fed", 2⟩
    (fun _ => rfl) (fun _ => rfl) (fun _ _ => rfl) (fun _ _ => rfl)
    rfl rfl rfl rfl rfl

/-- C6: `GetClusterHealthStatus` classifies a probe in exactly three
ways: a request error yields exactly the single Offline=True condition;
a successful request whose body case-insensitively equals "ok" yields
exactly the single Ready=True condition; a successful request with any
other body yields exactly the two conditions Ready=False and
Offline=False. -/
theorem C6_health_classification (probe : Option String) (currentTime : Nat) :
    (probe = none →
      GetClusterHealthStatus probe currentTime = [newClusterOfflineCondition currentTime]) ∧
    (∀ body, probe = some body → EqualFold body "ok" = true →
      GetClusterHealthStatus probe currentTime = [newClusterReadyCondition currentTime]) ∧
    (∀ body, probe = some body → EqualFold body "ok" = false →
      GetClusterHealthStatus probe currentTime =
        [newClusterNotReadyCondition currentTime, newClusterNotOfflineCondition currentTime]) ∧
    (newClusterOfflineCondition currentTime).type = ConditionType.clusterOffline ∧
    (newClusterOfflineCondition currentTime).status = ConditionStatus.conditionTrue ∧
    (newClusterReadyCondition currentTime).type = ConditionType.clusterReady ∧
    (newClusterReadyCondition currentTime).status = ConditionStatus.conditionTrue ∧
    (newClusterNotReadyCondition currentTime).type = ConditionType.clusterReady ∧
    (newClusterNotReadyCondition currentTime).status = ConditionStatus.conditionFalse ∧
    (newClusterNotOfflineCondition currentTime).type = ConditionType.clusterOffline ∧
    (newClusterNotOfflineCondition currentTime).status = ConditionStatus.conditionFalse := by
  refine ⟨?_, ?_, ?_, rfl, rfl, rfl, rfl, rfl, rfl, rfl, rfl⟩
  · rintro rfl; rfl
  · rintro body rfl hb
    simp [GetClusterHealthStatus, hb]
  · rintro body rfl hb
    simp [GetClusterHealthStatus, hb]

theorem C6_witness :
    GetClusterHealthStatus (some "OK") 0 = [newClusterReadyCondition 0] ∧
    GetClusterHealthStatus none 0 = [newClusterOfflineCondition 0] ∧
    GetClusterHealthStatus (some "degraded") 0 =
      [newClusterNotReadyCondition 0, newClusterNotOfflineCondition 0] :=
  ⟨(C6_health_classification (some "OK") 0).2.1 "OK" rfl (by decide),
   (C6_health_classification none 0).1 rfl,
   (C6_health_classification (some "degraded") 0).2.2.1 "degraded" rfl (by decide)⟩

/-- C10: whenever the host clientset and the generic client are built
successfully and either the member clientset is built successfully or
`forceDeletion` is true, `UnjoinCluster` returns nil, for every possible
outcome of the member-side deletions: a member-side teardown failure is
never reflected in the returned error. -/
theorem C10_unjoin_error_independent_of_teardown (w : UnjoinWorld) (cfgPresent : Bool)
    (fedNs hcn cn : String) (force dryRun : Bool)
    (hHost : w.hostClientsetOk = true)
    (hGen : w.genericClientOk = true)
    (hMem : w.clusterClientsetOk = true ∨ force = true) :
    (UnjoinCluster w cfgPresent fedNs hcn cn force dryRun).1 = none := by
  cases cfgPresent <;> rcases hMem with h | h <;>
    cases hcc : w.clusterClientsetOk <;>
      simp_all [UnjoinCluster]

theorem C10_witness :
    (UnjoinCluster memberFailWorld true "kube-federation-system" "cluster1" "cluster2"
      false false).1 = none :=
  C10_unjoin_error_independent_of_teardown memberFailWorld true
    "kube-federation-system" "cluster1" "cluster2" false false rfl rfl (Or.inl rfl)

/-- C4 fails on the code at this input: with the kubefed namespace
already absent on the member cluster, the member-side lookup returns
NotFound and `deleteFedNSFromUnjoinCluster` propagates it as an error
instead of reporting success. -/
theorem C4_counterexample :
    (deleteFedNSFromUnjoinCluster okHost allNotFoundMember
      "kube-federation-system" "cluster2" false).1 = some GoError.memberNsLookup := by
  rfl

/-- C4 (amended): `deleteFedNSFromUnjoinCluster` propagates an error
whenever the host-side or member-side lookup of the kubefed namespace
fails for any reason — a NotFound lookup (namespace already absent)
included; only a NotFound outcome of the delete call itself is treated
as already-torn-down success, while any other delete failure is an
error. -/
theorem C4_lookup_errors_propagate (h : HostApi) (m : MemberApi) (fedNs cn : String) :
    ((h.getNamespace fedNs).isNil = false →
      (deleteFedNSFromUnjoinCluster h m fedNs cn false).1 = some GoError.hostNsLookup) ∧
    (∀ hostNs, h.getNamespace fedNs = .found hostNs → (m.getNamespace fedNs).isNil = false →
      (deleteFedNSFromUnjoinCluster h m fedNs cn false).1 = some GoError.memberNsLookup) ∧
    (∀ hostNs memNs, h.getNamespace fedNs = .found hostNs →
      m.getNamespace fedNs = .found memNs →
      IsPrimaryCluster hostNs memNs = false → m.delNamespace fedNs = .notFound →
      (deleteFedNSFromUnjoinCluster h m fedNs cn false).1 = none) ∧
    (∀ hostNs memNs, h.getNamespace fedNs = .found hostNs →
      m.getNamespace fedNs = .found memNs →
      IsPrimaryCluster hostNs memNs = false → m.delNamespace fedNs = .otherError →
      (deleteFedNSFromUnjoinCluster h m fedNs cn false).1 = some GoError.nsDelete) := by
  refine ⟨?_, ?_, ?_, ?_⟩
  · intro hh
    cases hg : h.getNamespace fedNs with
    | found x => rw [hg] at hh; simp [GetResult.isNil] at hh
    | notFound => simp [deleteFedNSFromUnjoinCluster, hg]
    | otherError => simp [deleteFedNSFromUnjoinCluster, hg]
  · intro hostNs hg hm
    cases hmg : m.getNamespace fedNs with
    | found x => rw [hmg] at hm; simp [GetResult.isNil] at hm
    | notFound => simp [deleteFedNSFromUnjoinCluster, hg, hmg]
    | otherError => simp [deleteFedNSFromUnjoinCluster, hg, hmg]
  · intro hostNs memNs hg hmg hp hd
    simp [deleteFedNSFromUnjoinCluster, hg, hmg, hp, hd, DelResult.isNotFound]
  · intro hostNs memNs hg hmg hp hd
    simp [deleteFedNSFromUnjoinCluster, hg, hmg, hp, hd,
      DelResult.isNotFound, DelResult.isNil]

theorem C4_amended_witness :
    (deleteFedNSFromUnjoinCluster brokenHost allOkMember "fed" "cluster2" false).1
        = some GoError.hostNsLookup ∧
    (deleteFedNSFromUnjoinCluster okHost allNotFoundMember "fed" "cluster2" false).1
        = some GoError.memberNsLookup ∧
    (deleteFedNSFromUnjoinCluster okHost notFoundMemberNsFound "fed" "cluster2" false).1
        = none ∧
    (deleteFedNSFromUnjoinCluster okHost nsDeleteFailMember "fed" "cluster2" false).1
        = some GoError.nsDelete :=
  ⟨(C4_lookup_errors_propagate brokenHost allOkMember "fed" "cluster2").1 rfl,
   (C4_lookup_errors_propagate okHost allNotFoundMember "fed" "cluster2").2.1 ⟨"fed", 1⟩ rfl rfl,
   (C4_lookup_errors_propagate okHost notFoundMemberNsFound "fed" "cluster2").2.2.1
     ⟨"fed", 1⟩ ⟨"fed", 2⟩ rfl rfl rfl rfl,
   (C4_lookup_errors_propagate okHost nsDeleteFailMember "fed" "cluster2").2.2.2
     ⟨"fed", 1⟩ ⟨"fed", 2⟩ rfl rfl rfl rfl⟩

/-- C5 fails on the code at this input: with `dryRun=true`,
`deleteFedNSFromUnjoinCluster` returns success immediately without
performing the namespace lookups or the primary-cluster identity check,
even in a state where the non-dry-run decision tree fails at the
host-side lookup — so the full decision tree is not exercised. -/
theorem C5_counterexample :
    deleteFedNSFromUnjoinCluster brokenHost allOkMember
        "kube-federation-system" "cluster2" true = (none, []) ∧
    (deleteFedNSFromUnjoinCluster brokenHost allOkMember
        "kube-federation-system" "cluster2" false).1 = some GoError.hostNsLookup :=
  ⟨rfl, rfl⟩

/-- C5 (amended): with `dryRun=true`, no API call at all — mutating or
read — is performed, every sub-operation reports success, and the
aggregate-success gate in `UnjoinCluster` is still evaluated (passing
trivially); but the dry-run helpers return immediately, so the
namespace lookups, the primary-cluster identity check and the
registration-record fetch are skipped. -/
theorem C5_dry_run_pure (w : UnjoinWorld) (cfgPresent : Bool)
    (fedNs hcn cn : String) (force : Bool)
    (hHost : w.hostClientsetOk = true) (hGen : w.genericClientOk = true)
    (hMem : (cfgPresent && !w.clusterClientsetOk && !force) = false) :
    UnjoinCluster w cfgPresent fedNs hcn cn force true = (none, []) ∧
    deleteRBACResources w.member fedNs cn hcn true = (true, []) ∧
    deleteClusterRoleAndBinding w.member (ClusterServiceAccountName cn hcn) fedNs true
        = (true, []) ∧
    deleteServiceAccount w.member (ClusterServiceAccountName cn hcn) fedNs true
        = (.ok, []) ∧
    deleteFedNSFromUnjoinCluster w.host w.member fedNs cn true = (none, []) ∧
    deleteKubefedClusterAndSecret w.host fedNs cn true = [] := by
  refine ⟨?_, rfl, rfl, rfl, rfl, rfl⟩
  cases cfgPresent <;> cases hcc : w.clusterClientsetOk <;> cases force <;>
    simp_all [UnjoinCluster, deleteRBACResources, deleteClusterRoleAndBinding,
      deleteServiceAccount, deleteFedNSFromUnjoinCluster, deleteKubefedClusterAndSecret]

theorem C5_witness :
    UnjoinCluster okWorld true "fed" "cluster1" "cluster2" false true = (none, []) ∧
    deleteRBACResources okWorld.member "fed" "cluster2" "cluster1" true = (true, []) ∧
    deleteClusterRoleAndBinding okWorld.member
        (ClusterServiceAccountName "cluster2" "cluster1") "fed" true = (true, []) ∧
    deleteServiceAccount okWorld.member
        (ClusterServiceAccountName "cluster2" "cluster1") "fed" true = (.ok, []) ∧
    deleteFedNSFromUnjoinCluster okWorld.host okWorld.member "fed" "cluster2" true
        = (none, []) ∧
    deleteKubefedClusterAndSecret okWorld.host "fed" "cluster2" true = [] :=
  C5_dry_run_pure okWorld true "fed" "cluster1" "cluster2" false rfl rfl rfl

/-- C8: unjoin validation fails exactly when no cluster-name argument is
supplied, or a `hostClusterName` override containing `/` or `:` is
supplied, or no override is supplied and the host-cluster-context
contains `/` or `:`; any validation failure aborts the command with an
error before any network call (the trace is empty). -/
theorem C8_validation (o : UnjoinOpts) (args : List String)
    (cfg : FedConfigModel) (w : UnjoinWorld) :
    ((∃ e, Complete o args = .error e) ↔
      (args = [] ∨
       (o.hostClusterName ≠ "" ∧ containsColonOrSlash o.hostClusterName = true) ∨
       (o.hostClusterName = "" ∧ containsColonOrSlash o.hostClusterContext = true))) ∧
    (∀ e, Complete o args = .error e → unjoinCommandRun cfg w o args = (some e, [])) := by
  constructor
  · cases args with
    | nil => simp [Complete, SetName]
    | cons a as =>
      by_cases h1 : o.hostClusterName = "" <;>
        by_cases h2 : containsColonOrSlash o.hostClusterName = true <;>
          by_cases h3 : containsColonOrSlash o.hostClusterContext = true <;>
            by_cases h4 : o.clusterContext = "" <;>
              simp [Complete, SetName, h1, h2, h3, h4]
  · intro e he
    simp [unjoinCommandRun, he]

theorem C8_witness :
    unjoinCommandRun cfgAllOk okWorld oPlain [] = (some GoError.nameRequired, []) :=
  (C8_validation oPlain [] cfgAllOk okWorld).2 GoError.nameRequired rfl

/-- C9: RBAC teardown is best-effort and exhaustive: the six
role/binding deletes are always all issued in order regardless of
individual outcomes; the aggregate flag is true exactly when none of
them fails with a non-NotFound error; and the service-account delete is
issued even when earlier deletions failed. -/
theorem C9_rbac_best_effort (m : MemberApi) (nsName cn hn : String) :
    (deleteClusterRoleAndBinding m (ClusterServiceAccountName cn hn) nsName false).2 =
      [Event.memDelClusterRoleBinding (RoleName (ClusterServiceAccountName cn hn)),
       Event.memDelClusterRole (RoleName (ClusterServiceAccountName cn hn)),
       Event.memDelClusterRoleBinding
         (HealthCheckRoleName (ClusterServiceAccountName cn hn) nsName),
       Event.memDelClusterRole
         (HealthCheckRoleName (ClusterServiceAccountName cn hn) nsName),
       Event.memDelRoleBinding nsName (RoleName (ClusterServiceAccountName cn hn)),
       Event.memDelRole nsName (RoleName (ClusterServiceAccountName cn hn))] ∧
    Event.memDelServiceAccount nsName (ClusterServiceAccountName cn hn) ∈
      (deleteRBACResources m nsName cn hn false).2 ∧
    ((deleteClusterRoleAndBinding m (ClusterServiceAccountName cn hn) nsName false).1
        = true ↔
      (m.delClusterRoleBinding (RoleName (ClusterServiceAccountName cn hn))
          ≠ .otherError ∧
       m.delClusterRole (RoleName (ClusterServiceAccountName cn hn)) ≠ .otherError ∧
       m.delClusterRoleBinding (HealthCheckRoleName (ClusterServiceAccountName cn hn) nsName)
          ≠ .otherError ∧
       m.delClusterRole (HealthCheckRoleName (ClusterServiceAccountName cn hn) nsName)
          ≠ .otherError ∧
       m.delRoleBinding nsName (RoleName (ClusterServiceAccountName cn hn))
          ≠ .otherError ∧
       m.delRole nsName (RoleName (ClusterServiceAccountName cn hn)) ≠ .otherError)) := by
  refine ⟨rfl, ?_, ?_⟩
  · simp [deleteRBACResources, deleteServiceAccount, deleteClusterRoleAndBinding]
  · simp only [deleteClusterRoleAndBinding, clusterRoleLoop, notFoundTolerant_eq]
    simp [Bool.and_eq_true, Bool.not_eq_true', beq_eq_false_iff_ne, and_assoc]

theorem clusterRoleLoop_no_host_dereg (m : MemberApi) (names : List String) :
    ∀ e ∈ (clusterRoleLoop m names).2, e.isHostDeregistration = false := by
  induction names with
  | nil => simp [clusterRoleLoop]
  | cons a as ih =>
    intro e he
    simp only [clusterRoleLoop, List.mem_cons] at he
    rcases he with rfl | rfl | he
    · rfl
    · rfl
    · exact ih e he

theorem deleteClusterRoleAndBinding_no_host_dereg (m : MemberApi) (sa nsName : String)
    (dr : Bool) :
    ∀ e ∈ (deleteClusterRoleAndBinding m sa nsName dr).2, e.isHostDeregistration = false := by
  cases dr with
  | true => simp [deleteClusterRoleAndBinding]
  | false =>
    intro e he
    simp only [deleteClusterRoleAndBinding, List.mem_append, List.mem_cons,
      List.not_mem_nil, or_false, Bool.false_eq_true, if_false] at he
    rcases he with he | rfl | rfl
    · exact clusterRoleLoop_no_host_dereg m _ e he
    · rfl
    · rfl

theorem deleteRBACResources_no_host_dereg (m : MemberApi) (nsName cn hn : String)
    (dr : Bool) :
    ∀ e ∈ (deleteRBACResources m nsName cn hn dr).2, e.isHostDeregistration = false := by
  intro e he
  simp only [deleteRBACResources, List.mem_append] at he
  rcases he with he | he
  · exact deleteClusterRoleAndBinding_no_host_dereg m _ nsName dr e he
  · cases dr with
    | true => simp [deleteServiceAccount] at he
    | false =>
      simp only [deleteServiceAccount, Bool.false_eq_true, if_false,
        List.mem_cons, List.not_mem_nil, or_false] at he
      subst he
      rfl

theorem deleteFedNS_no_host_dereg (h : HostApi) (m : MemberApi) (fedNs cn : String)
    (dr : Bool) :
    ∀ e ∈ (deleteFedNSFromUnjoinCluster h m fedNs cn dr).2,
      e.isHostDeregistration = false := by
  intro e he
  cases dr with
  | true => simp [deleteFedNSFromUnjoinCluster] at he
  | false =>
    cases hg : h.getNamespace fedNs with
    | notFound =>
      simp only [deleteFedNSFromUnjoinCluster, hg, Bool.false_eq_true, if_false,
        List.mem_cons, List.not_mem_nil, or_false] at he
      subst he; rfl
    | otherError =>
      simp only [deleteFedNSFromUnjoinCluster, hg, Bool.false_eq_true, if_false,
        List.mem_cons, List.not_mem_nil, or_false] at he
      subst he; rfl
    | found hostNs =>
      cases hmg : m.getNamespace fedNs with
      | notFound =>
        simp only [deleteFedNSFromUnjoinCluster, hg, hmg, Bool.false_eq_true, if_false,
          List.mem_cons, List.not_mem_nil, or_false] at he
        rcases he with rfl | rfl
        · rfl
        · rfl
      | otherError =>
        simp only [deleteFedNSFromUnjoinCluster, hg, hmg, Bool.false_eq_true, if_false,
          List.mem_cons, List.not_mem_nil, or_false] at he
        rcases he with rfl | rfl
        · rfl
        · rfl
      | found memNs =>
        simp only [deleteFedNSFromUnjoinCluster, hg, hmg, Bool.false_eq_true, if_false] at he
        by_cases hp : IsPrimaryCluster hostNs memNs = true
        · rw [if_pos hp] at he
          simp only [List.mem_cons, List.not_mem_nil, or_false] at he
          rcases he with rfl | rfl
          · rfl
          · rfl
        · rw [if_neg hp] at he
          have hmem : e ∈ [Event.hostGetNamespace fedNs, Event.memGetNamespace fedNs,
              Event.memDelNamespace fedNs] := by
            by_cases hnf : (m.delNamespace fedNs).isNotFound = true
            · rw [if_pos hnf] at he; simpa using he
            · rw [if_neg hnf] at he
              by_cases hnil : (!(m.delNamespace fedNs).isNil) = true
              · rw [if_pos hnil] at he; simpa using he
              · rw [if_neg hnil] at he; simpa using he
          simp only [List.mem_cons, List.not_mem_nil, or_false] at hmem
          rcases hmem with rfl | rfl | rfl
          · rfl
          · rfl
          · rfl

theorem deleteKubefedClusterAndSecret_get_mem (h : HostApi) (fedNs cn : String) :
    Event.hostGetKubefedCluster fedNs cn ∈ deleteKubefedClusterAndSecret h fedNs cn false := by
  cases hg : h.getKubefedCluster fedNs cn <;>
    simp [deleteKubefedClusterAndSecret, hg]

/-- C2: when the host clientset, the member clientset and the generic
client are all built (member reachable), `UnjoinCluster` performs the
host-side deregistration (fetch of the registration record, deletion of
record and secret) if and only if the aggregate member-side teardown
(RBAC deletion and namespace deletion) succeeded or `forceDeletion` is
true; when the aggregate teardown failed and `forceDeletion` is false,
no host-side deregistration call appears in the trace. -/
theorem C2_host_deregistration_gate (w : UnjoinWorld) (fedNs hcn cn : String)
    (force : Bool)
    (hHost : w.hostClientsetOk = true) (hMem : w.clusterClientsetOk = true)
    (hGen : w.genericClientOk = true) :
    (∃ e ∈ (UnjoinCluster w true fedNs hcn cn force false).2,
        e.isHostDeregistration = true) ↔
      (((deleteRBACResources w.member fedNs cn hcn false).1 = true ∧
        (deleteFedNSFromUnjoinCluster w.host w.member fedNs cn false).1 = none) ∨
       force = true) := by
  have hU : UnjoinCluster w true fedNs hcn cn force false =
      (none, (deleteRBACResources w.member fedNs cn hcn false).2 ++
             (deleteFedNSFromUnjoinCluster w.host w.member fedNs cn false).2 ++
             (if (deleteRBACResources w.member fedNs cn hcn false).1 &&
                 (deleteFedNSFromUnjoinCluster w.host w.member fedNs cn false).1.isNone
                 || force
              then deleteKubefedClusterAndSecret w.host fedNs cn false else [])) := by
    simp [UnjoinCluster, hHost, hMem, hGen]
  have hgate : ((deleteRBACResources w.member fedNs cn hcn false).1 &&
      (deleteFedNSFromUnjoinCluster w.host w.member fedNs cn false).1.isNone
      || force) = true ↔
      (((deleteRBACResources w.member fedNs cn hcn false).1 = true ∧
        (deleteFedNSFromUnjoinCluster w.host w.member fedNs cn false).1 = none) ∨
       force = true) := by
    simp [Bool.or_eq_true, Bool.and_eq_true, Option.isNone_iff_eq_none]
  rw [hU]
  constructor
  · rintro ⟨e, he, hd⟩
    simp only [List.mem_append] at he
    rcases he with (he | he) | he
    · rw [deleteRBACResources_no_host_dereg w.member fedNs cn hcn false e he] at hd
      exact absurd hd (by simp)
    · rw [deleteFedNS_no_host_dereg w.host w.member fedNs cn false e he] at hd
      exact absurd hd (by simp)
    · by_cases hg : ((deleteRBACResources w.member fedNs cn hcn false).1 &&
          (deleteFedNSFromUnjoinCluster w.host w.member fedNs cn false).1.isNone
          || force) = true
      · exact hgate.mp hg
      · rw [if_neg hg] at he
        simp at he
  · intro hok
    refine ⟨Event.hostGetKubefedCluster fedNs cn, ?_, rfl⟩
    simp only [List.mem_append]
    right
    rw [if_pos (hgate.mpr hok)]
    exact deleteKubefedClusterAndSecret_get_mem w.host fedNs cn

theorem C2_witness :
    (∃ e ∈ (UnjoinCluster okWorld true "fed" "cluster1" "cluster2" false false).2,
        e.isHostDeregistration = true) ↔
      (((deleteRBACResources okWorld.member "fed" "cluster2" "cluster1" false).1 = true ∧
        (deleteFedNSFromUnjoinCluster okWorld.host okWorld.member "fed" "cluster2"
          false).1 = none) ∨
       false = true) :=
  C2_host_deregistration_gate okWorld "fed" "cluster1" "cluster2" false rfl rfl rfl

/-- C3: when loading the member cluster's config fails: with
`forceDeletion=true`, the run continues with no member client, the
host-side registration record and its secret are deleted and no error
is returned; with `forceDeletion=false`, the config error is propagated
before any API call and nothing is deleted. -/
theorem C3_force_degradation (cfg : FedConfigModel) (w : UnjoinWorld) (o : UnjoinOpts)
    (fc : KubefedClusterObj)
    (hHostCfg : cfg.hostConfigOk = true)
    (hMemCfg : cfg.clusterConfigOk = false)
    (hHost : w.hostClientsetOk = true) (hGen : w.genericClientOk = true)
    (hDry : o.dryRun = false)
    (hGet : w.host.getKubefedCluster o.kubefedNamespace o.clusterName = .found fc) :
    (o.forceDeletion = true →
      unjoinRun cfg w o =
        (none, [Event.hostGetKubefedCluster o.kubefedNamespace o.clusterName,
                Event.hostDelSecret o.kubefedNamespace fc.secretRefName,
                Event.hostDelKubefedCluster fc.namespaceField fc.name])) ∧
    (o.forceDeletion = false →
      unjoinRun cfg w o = (some GoError.clusterConfigLoad, [])) := by
  constructor
  · intro hf
    simp [unjoinRun, UnjoinCluster, deleteKubefedClusterAndSecret,
      hHostCfg, hMemCfg, hHost, hGen, hDry, hf, hGet]
  · intro hf
    simp [unjoinRun, hHostCfg, hMemCfg, hf]

theorem C3_witness :
    unjoinRun cfgMemberGone okWorld oForce =
      (none, [Event.hostGetKubefedCluster "kube-federation-system" "cluster2",
              Event.hostDelSecret "kube-federation-system" "cluster2-credentials",
              Event.hostDelKubefedCluster "kube-federation-system" "cluster2"]) ∧
    unjoinRun cfgMemberGone okWorld oPlain = (some GoError.clusterConfigLoad, []) :=
  ⟨(C3_force_degradation cfgMemberGone okWorld oForce fedClusterRecord
      rfl rfl rfl rfl rfl rfl).1 rfl,
   (C3_force_degradation cfgMemberGone okWorld oPlain fedClusterRecord
      rfl rfl rfl rfl rfl rfl).2 rfl⟩

theorem zonesLoop_region_succ (nodes : List Node) :
    ∀ (i : Nat) (zs : List String) (r : String), (zonesLoop nodes (i + 1) zs r).2 = r := by
  induction nodes with
  | nil => intro i zs r; rfl
  | cons node rest ih =>
    intro i zs r
    simp only [zonesLoop]
    have h0 : ((i + 1 : Nat) == 0) = false := by simp
    rw [h0]
    simpa using ih (i + 1) _ r

theorem zonesLoop_region (nodes : List Node) :
    (zonesLoop nodes 0 [] "").2 =
      (match nodes with
       | [] => ""
       | node :: _ => getRegionNameForNode node) := by
  cases nodes with
  | nil => rfl
  | cons node rest =>
    simp only [zonesLoop]
    exact zonesLoop_region_succ rest 0 _ _

theorem zonesLoop_mem (nodes : List Node) :
    ∀ (i : Nat) (zs : List String) (r z : String),
      z ∈ (zonesLoop nodes i zs r).1 ↔
        z ∈ zs ∨ (z ≠ "" ∧ ∃ n ∈ nodes, getZoneNameForNode n = z) := by
  induction nodes with
  | nil => intro i zs r z; simp [zonesLoop]
  | cons node rest ih =>
    intro i zs r z
    simp only [zonesLoop]
    rw [ih]
    by_cases hze : getZoneNameForNode node = ""
    · have hg : (getZoneNameForNode node != "" &&
          !zs.contains (getZoneNameForNode node)) = false := by
        simp [hze]
      rw [hg]
      simp only [Bool.false_eq_true, if_false, List.mem_cons]
      constructor
      · rintro (h | ⟨h1, n, hn, h2⟩)
        · exact Or.inl h
        · exact Or.inr ⟨h1, n, Or.inr hn, h2⟩
      · rintro (h | ⟨h1, n, (rfl | hn), h2⟩)
        · exact Or.inl h
        · exact absurd (h2 ▸ hze) h1
        · exact Or.inr ⟨h1, n, hn, h2⟩
    · by_cases hcon : getZoneNameForNode node ∈ zs
      · have hg : (getZoneNameForNode node != "" &&
            !zs.contains (getZoneNameForNode node)) = false := by
          simp [hcon]
        rw [hg]
        simp only [Bool.false_eq_true, if_false, List.mem_cons]
        constructor
        · rintro (h | ⟨h1, n, hn, h2⟩)
          · exact Or.inl h
          · exact Or.inr ⟨h1, n, Or.inr hn, h2⟩
        · rintro (h | ⟨h1, n, (rfl | hn), h2⟩)
          · exact Or.inl h
          · exact Or.inl (h2 ▸ hcon)
          · exact Or.inr ⟨h1, n, hn, h2⟩
      · have hg : (getZoneNameForNode node != "" &&
            !zs.contains (getZoneNameForNode node)) = true := by
          simp [hze, hcon]
        rw [hg]
        simp only [if_true, List.mem_append, List.mem_cons, List.not_mem_nil, or_false]
        constructor
        · rintro ((h | h) | ⟨h1, n, hn, h2⟩)
          · exact Or.inl h
          · exact Or.inr ⟨h ▸ hze, node, Or.inl rfl, h.symm⟩
          · exact Or.inr ⟨h1, n, Or.inr hn, h2⟩
        · rintro (h | ⟨h1, n, (rfl | hn), h2⟩)
          · exact Or.inl (Or.inl h)
          · exact Or.inl (Or.inr h2.symm)
          · exact Or.inr ⟨h1, n, hn, h2⟩

theorem zonesLoop_nodup (nodes : List Node) :
    ∀ (i : Nat) (zs : List String) (r : String),
      zs.Nodup → (zonesLoop nodes i zs r).1.Nodup := by
  induction nodes with
  | nil => intro i zs r h; exact h
  | cons node rest ih =>
    intro i zs r h
    simp only [zonesLoop]
    apply ih
    by_cases hcon : getZoneNameForNode node ∈ zs
    · have hg : (getZoneNameForNode node != "" &&
          !zs.contains (getZoneNameForNode node)) = false := by
        simp [hcon]
      rw [hg]
      simpa using h
    · by_cases hze : getZoneNameForNode node = ""
      · have hg : (getZoneNameForNode node != "" &&
            !zs.contains (getZoneNameForNode node)) = false := by
          simp [hze]
        rw [hg]
        simpa using h
      · have hg : (getZoneNameForNode node != "" &&
            !zs.contains (getZoneNameForNode node)) = true := by
          simp [hze, hcon]
        rw [hg]
        simp only [if_true]
        rw [← List.concat_eq_append]
        exact List.Nodup.concat hcon h

/-- C7: on a successful node listing, `GetClusterZones` returns exactly
the set of non-empty zone labels of all nodes, deduplicated, and as
region the region label of the first node in listing order only; for
nodes labeled (zone a, region r1), (zone a, region r2), (zone b, region
r2) it returns zones [a, b] and region r1. -/
theorem C7_zone_aggregation :
    (∀ nodes : List Node, ∃ zones region,
      GetClusterZones (some nodes) = .ok (zones, region) ∧
      (∀ z, z ∈ zones ↔ (z ≠ "" ∧ ∃ n ∈ nodes, getZoneNameForNode n = z)) ∧
      zones.Nodup ∧
      region = (match nodes with
                | [] => ""
                | node :: _ => getRegionNameForNode node)) ∧
    GetClusterZones
      (some [⟨[(LabelZoneFailureDomain, "a"), (LabelZoneRegion, "r1")]⟩,
             ⟨[(LabelZoneFailureDomain, "a"), (LabelZoneRegion, "r2")]⟩,
             ⟨[(LabelZoneFailureDomain, "b"), (LabelZoneRegion, "r2")]⟩]) =
      .ok (["a", "b"], "r1") := by
  constructor
  · intro nodes
    refine ⟨_, _, rfl, ?_, ?_, ?_⟩
    · intro z
      rw [List.mem_insertionSort]
      simpa using zonesLoop_mem nodes 0 [] "" z
    · exact ((List.perm_insertionSort _ _).nodup_iff).mpr
        (zonesLoop_nodup nodes 0 [] "" (by simp))
    · exact zonesLoop_region nodes
  · rfl

end Kubefed
